import Mathlib

/-!
# QuickAi — `server/controllers/aiController.js`

A shallow embedding of the six request handlers of the controller
(`generateArticle`, `generateBlogTitle`, `generateImage`,
`removeImageBackground`, `removeImageObject`, `resumeReview`).

Every handler is a JavaScript `async` function whose whole body sits in one
`try { ... } catch (error) { ... }`.  The embedding makes the outside world
explicit:

* `Request` holds what the middleware put on `req` (auth, body, file, plan,
  free_usage);
* `Services` holds one answer function per external collaborator (completion
  API, image queue, media store, file system, PDF extractor, SQL store,
  identity provider).  An answer is either a value or a thrown `JsError`;
* a handler is a total function `Services → Request → Run`; a `Run` is the
  response sent with `res.json` together with the ordered list of external
  calls the handler made (`trace`), each tagged with the message of the error
  it raised, if it raised one.
-/

namespace QuickAi

/-! ## Data model -/

/-- A thrown JavaScript error: `error.message` and `error.response?.data`
(only read by the catch block of `generateImage`). -/
structure JsError where
  message : String
  responseData : Option String := none
deriving DecidableEq, Repr

/-- The object of `req.file` (multer). -/
structure UploadedFile where
  path : String
  size : Nat
  mimetype : String
deriving DecidableEq, Repr

/-- The fields of `req` the handlers read.  `auth` is the outcome of the call
`req.auth()`; `authUserIdProp` is the value of the property read
`req.auth?.userId` (used by `removeImageBackground` only); `none` stands for
`undefined`.  `free_usage` is a JavaScript number that holds an integer. -/
structure Request where
  auth : Except JsError (Option String)
  authUserIdProp : Option String := none
  prompt : String := ""
  length : Option Int := none
  publish : Option Bool := none
  object : Option String := none
  file : Option UploadedFile := none
  plan : String
  free_usage : Int := 0

/-- One row of the `creations` table, as the `INSERT` statements write it.
`publish` is `none` when the statement does not name the column. -/
structure Creation where
  user_id : Option String
  prompt : String
  content : String
  type : String
  publish : Option Bool := none
deriving DecidableEq, Repr

/-- A decimal literal `mantissa · 10^(-exponent)`; `0.7` is `⟨7, 1⟩`. -/
structure Decimal where
  mantissa : Nat
  exponent : Nat
deriving DecidableEq, Repr

/-- The argument of `AI.chat.completions.create`: one user-role message. -/
structure ChatRequest where
  model : String
  content : String
  temperature : Decimal
  max_tokens : Option Int
deriving DecidableEq, Repr

/-- One element of `check.data.generations`. -/
structure Generation where
  img : Option String
deriving DecidableEq, Repr

/-- The body `check.data` of a status response of the image queue. -/
structure StatusData where
  done : Bool
  generations : Option (List Generation)
deriving DecidableEq, Repr

/-- What `cloudinary.uploader.upload` resolves to. -/
structure UploadResult where
  secure_url : String
  public_id : String
deriving DecidableEq, Repr

/-- The external calls a handler can make. -/
inductive Call where
  | auth
  | completion (r : ChatRequest)
  | insert (c : Creation)
  | updateUserMetadata (userId : Option String) (free_usage : Int)
  | hordeSubmit (prompt : String) (apikey : String)
  | hordeStatus (id : String)
  | sleep (ms : Nat)
  | upload (source : String) (backgroundRemoval : Bool)
  | readFileSync (path : String)
  | pdf (data : String)
deriving DecidableEq, Repr

/-- One entry of the trace: the call and, when it threw, the error message. -/
structure Event where
  call : Call
  failed : Option String := none
deriving DecidableEq, Repr

/-- The external collaborators.  `hordeStatus id k` answers the `k`-th status
query (counted from 0) for job `id`; `url` is the synchronous
`cloudinary.url(public_id, {transformation: [{effect}], resource_type})`. -/
structure Services where
  AI_HORDE_API_KEY : Option String
  completion : ChatRequest → Except JsError (Option String)
  insert : Creation → Except JsError Unit
  updateUserMetadata : Option String → Int → Except JsError Unit
  hordeSubmit : String → String → Except JsError (Option String)
  hordeStatus : String → Nat → Except JsError StatusData
  upload : String → Bool → Except JsError UploadResult
  url : String → String → String
  readFileSync : String → Except JsError String
  pdf : String → Except JsError String

/-- The JSON body handed to `res.json` and the HTTP status set before it
(200 unless `res.status(...)` was called). -/
structure Response where
  status : Nat := 200
  success : Bool
  message : Option String := none
  content : Option String := none
  details : Option String := none
deriving DecidableEq, Repr

/-- The observable outcome of one handler invocation. -/
structure Run where
  response : Response
  trace : List Event
deriving DecidableEq, Repr

/-! ## Small helpers -/

/-- JavaScript truthiness of a value that is a string or `undefined`. -/
def truthy : Option String → Bool
  | some s => s ≠ ""
  | none => false

/-- The number of low bits a double drops from the magnitude `a`: the least `e`
with `a / 2 ^ e < 2 ^ 53`.  The first argument bounds the search; 1024 covers
every finite double. -/
def droppedBits : Nat → Nat → Nat
  | 0, _ => 0
  | fuel + 1, a => if a < 2 ^ 53 then 0 else droppedBits fuel (a / 2) + 1

/-- The IEEE-754 double nearest to the integer `z`, as an integer: round to
nearest, ties to the even significand.  An integer of magnitude below `2 ^ 53`
is a double itself; above, the significand keeps 53 bits.  Meant for
magnitudes below `2 ^ 1024`, the range of finite doubles. -/
def roundToDouble (z : Int) : Int :=
  let a := z.natAbs
  if a < 2 ^ 53 then z
  else
    let e := droppedBits 1024 a
    let q := a / 2 ^ e
    let r := a % 2 ^ e
    let q' := if 2 * r > 2 ^ e ∨ (2 * r = 2 ^ e ∧ q % 2 = 1) then q + 1 else q
    Int.sign z * ((q' * 2 ^ e : Nat) : Int)

/-- JavaScript `x + y` on two numbers that hold integers: the exact sum,
rounded to a double. -/
def jsAdd (x y : Int) : Int :=
  roundToDouble (x + y)

/-- A call that resolved. -/
def ok (c : Call) : Event := { call := c }

/-- A call that threw `e`. -/
def threw (c : Call) (e : JsError) : Event := { call := c, failed := some e.message }

/-- The message of the `TypeError` raised by `response.choices[0].message`
when the completion has no first choice. -/
def noChoiceMessage : String := "Cannot read properties of undefined (reading 'message')"

/-- The body of the quota rejection (lines 24–27 and 66–69). -/
def limitReached : Response :=
  { success := false, message := some "Limit reached. Upgrade to continue." }

/-- The body of the plan rejection (lines 108–111, 206–209, 261–264, 306–309). -/
def premiumOnly : Response :=
  { success := false, message := some "This feature is only available for premium users." }

/-- The catch block of `generateArticle` / `generateBlogTitle`:
`res.json({ success: false, message: error.message })`. -/
def catchJson (e : JsError) : Response :=
  { success := false, message := some e.message }

/-- The catch block of `generateImage`: also `details: error.response?.data`. -/
def catchImage (e : JsError) : Response :=
  { success := false, message := some e.message, details := e.responseData }

/-- The catch block of the last three handlers:
`res.status(500).json({ success: false, message: error.message })`. -/
def catch500 (e : JsError) : Response :=
  { status := 500, success := false, message := some e.message }

/-! ## Text generation -/

/-- The part of `generateArticle` / `generateBlogTitle` after the quota gate
(lines 30–50 and 72–92): completion call, first choice, INSERT, counter
update for non-premium callers, success response.  The two handlers differ in
`max_tokens` and in the type tag only. -/
def generateText (sv : Services) (req : Request) (userId : Option String)
    (max_tokens : Option Int) (type : String) (t : List Event) : Run :=
  let chat : ChatRequest :=
    { model := "gemini-2.0-flash", content := req.prompt, temperature := ⟨7, 1⟩,
      max_tokens := max_tokens }
  match sv.completion chat with
  | .error e => ⟨catchJson e, t ++ [threw (.completion chat) e]⟩
  | .ok none => ⟨catchJson { message := noChoiceMessage }, t ++ [ok (.completion chat)]⟩
  | .ok (some content) =>
    let t := t ++ [ok (.completion chat)]
    let row : Creation :=
      { user_id := userId, prompt := req.prompt, content := content, type := type }
    match sv.insert row with
    | .error e => ⟨catchJson e, t ++ [threw (.insert row) e]⟩
    | .ok _ =>
      let t := t ++ [ok (.insert row)]
      if req.plan ≠ "premium" then
        match sv.updateUserMetadata userId (jsAdd req.free_usage 1) with
        | .error e =>
          ⟨catchJson e, t ++ [threw (.updateUserMetadata userId (jsAdd req.free_usage 1)) e]⟩
        | .ok _ =>
          ⟨{ success := true, content := some content },
            t ++ [ok (.updateUserMetadata userId (jsAdd req.free_usage 1))]⟩
      else
        ⟨{ success := true, content := some content }, t⟩

/-- Handler `generateArticle` (lines 16–55). -/
def generateArticle (sv : Services) (req : Request) : Run :=
  match req.auth with
  | .error e => ⟨catchJson e, [threw .auth e]⟩
  | .ok userId =>
    if req.plan ≠ "premium" ∧ req.free_usage ≥ 10 then
      ⟨limitReached, [ok .auth]⟩
    else
      generateText sv req userId req.length "article" [ok .auth]

/-- Handler `generateBlogTitle` (lines 58–97). -/
def generateBlogTitle (sv : Services) (req : Request) : Run :=
  match req.auth with
  | .error e => ⟨catchJson e, [threw .auth e]⟩
  | .ok userId =>
    if req.plan ≠ "premium" ∧ req.free_usage ≥ 10 then
      ⟨limitReached, [ok .auth]⟩
    else
      generateText sv req userId (some 100) "blog-title" [ok .auth]

/-! ## Asynchronous image generation -/

/-- The constant `maxAttempts` of `generateImage` (line 143). -/
def maxAttempts : Nat := 20

/-- How the poll loop of `generateImage` (lines 145–159) is left. -/
inductive PollEnd where
  /-- Left with `imageResult` set and its `img` truthy. -/
  | image (img : String)
  /-- An error was thrown inside the loop body. -/
  | thrown (e : JsError)
  /-- The loop condition failed with `imageResult` still `null`. -/
  | exhausted
deriving DecidableEq, Repr

/-- The poll loop `while (!imageResult && attempts < maxAttempts)`.
The first argument is `maxAttempts - attempts`, the number of iterations the
counter still allows; the second is `attempts`, which is also the number of
status queries made so far, since every iteration that does not leave the loop
increments it.  Returns how the loop ended and the calls it made. -/
def poll (sv : Services) (id : String) : Nat → Nat → PollEnd × List Event
  | 0, _ => (.exhausted, [])
  | remaining + 1, attempts =>
    match sv.hordeStatus id attempts with
    | .error e => (.thrown e, [threw (.hordeStatus id) e])
    | .ok check =>
      match check.done, check.generations with
      | true, some (imageResult :: _) =>
        -- `check.data.done && check.data.generations?.length > 0`
        if truthy imageResult.img then
          (.image (imageResult.img.getD ""), [ok (.hordeStatus id)])
        else
          (.thrown { message := "AI Horde returned no image data" }, [ok (.hordeStatus id)])
      | _, _ =>
        -- `attempts++` and the five-second wait
        let rest := poll sv id remaining (attempts + 1)
        (rest.1, ok (.hordeStatus id) :: ok (.sleep 5000) :: rest.2)

/-- The argument of the upload in step 3 (lines 165–170): the URL itself, or
the inline bytes as a `data:` URI. -/
def uploadSource (img : String) : String :=
  if "http".data.isPrefixOf img.data then img else "data:image/png;base64," ++ img

/-- Steps 3 and 4 of `generateImage` (lines 163–180): upload of the image to
the media store, INSERT of the row whose content is the store's `secure_url`,
success response.  The trace holds the calls of these two steps only. -/
def storeImage (sv : Services) (req : Request) (userId : Option String) (img : String) :
    Run :=
  match sv.upload (uploadSource img) false with
  | .error e => ⟨catchImage e, [threw (.upload (uploadSource img) false) e]⟩
  | .ok cloudinaryUploadResult =>
    let secure_url := cloudinaryUploadResult.secure_url
    let row : Creation :=
      { user_id := userId, prompt := req.prompt, content := secure_url,
        type := "image", publish := some (req.publish.getD false) }
    match sv.insert row with
    | .error e =>
      ⟨catchImage e, [ok (.upload (uploadSource img) false), threw (.insert row) e]⟩
    | .ok _ =>
      ⟨{ success := true, content := some secure_url },
        [ok (.upload (uploadSource img) false), ok (.insert row)]⟩

/-- Handler `generateImage` (lines 101–189). -/
def generateImage (sv : Services) (req : Request) : Run :=
  match req.auth with
  | .error e => ⟨catchImage e, [threw .auth e]⟩
  | .ok userId =>
    if req.plan ≠ "premium" then
      ⟨premiumOnly, [ok .auth]⟩
    else if !truthy sv.AI_HORDE_API_KEY then
      ⟨catchImage { message := "AI_HORDE_API_KEY is missing in environment variables" },
        [ok .auth]⟩
    else
      let apikey := sv.AI_HORDE_API_KEY.getD ""
      match sv.hordeSubmit req.prompt apikey with
      | .error e => ⟨catchImage e, [ok .auth, threw (.hordeSubmit req.prompt apikey) e]⟩
      | .ok submitId =>
        let t := [ok .auth, ok (.hordeSubmit req.prompt apikey)]
        if !truthy submitId then
          ⟨catchImage { message := "Failed to get generation ID from AI Horde" }, t⟩
        else
          let id := submitId.getD ""
          let polled := poll sv id maxAttempts 0
          let t := t ++ polled.2
          match polled.1 with
          | .thrown e => ⟨catchImage e, t⟩
          | .exhausted => ⟨catchImage { message := "Image generation timed out" }, t⟩
          | .image img =>
            let stored := storeImage sv req userId img
            ⟨stored.response, t ++ stored.trace⟩

/-! ## Image background and object removal -/

/-- Handler `removeImageBackground` (lines 192–238).  `userId` is the property read
`req.auth?.userId`; no call is made for it. -/
def removeImageBackground (sv : Services) (req : Request) : Run :=
  let userId := req.authUserIdProp
  match req.file with
  | none => ⟨{ status := 400, success := false, message := some "No image uploaded." }, []⟩
  | some image =>
    if req.plan ≠ "premium" then
      ⟨premiumOnly, []⟩
    else
      match sv.upload image.path true with
      | .error e => ⟨catch500 e, [threw (.upload image.path true) e]⟩
      | .ok uploaded =>
        let secure_url := uploaded.secure_url
        let row : Creation :=
          { user_id := userId, prompt := "Remove background from image",
            content := secure_url, type := "image" }
        match sv.insert row with
        | .error e => ⟨catch500 e, [ok (.upload image.path true), threw (.insert row) e]⟩
        | .ok _ =>
          ⟨{ success := true, content := some secure_url },
            [ok (.upload image.path true), ok (.insert row)]⟩

/-- Handler `removeImageObject` (lines 240–286). -/
def removeImageObject (sv : Services) (req : Request) : Run :=
  match req.auth with
  | .error e => ⟨catch500 e, [threw .auth e]⟩
  | .ok userId =>
    match req.file with
    | none =>
      ⟨{ status := 400, success := false, message := some "No image uploaded." }, [ok .auth]⟩
    | some image =>
      if !truthy req.object then
        ⟨{ status := 400, success := false, message := some "Object name is required." },
          [ok .auth]⟩
      else if req.plan ≠ "premium" then
        ⟨premiumOnly, [ok .auth]⟩
      else
        let object := req.object.getD ""
        match sv.upload image.path false with
        | .error e => ⟨catch500 e, [ok .auth, threw (.upload image.path false) e]⟩
        | .ok uploaded =>
          let imageUrl := sv.url uploaded.public_id ("gen_remove:" ++ object)
          let row : Creation :=
            { user_id := userId, prompt := "Removed " ++ object ++ " from image",
              content := imageUrl, type := "image" }
          match sv.insert row with
          | .error e =>
            ⟨catch500 e, [ok .auth, ok (.upload image.path false), threw (.insert row) e]⟩
          | .ok _ =>
            ⟨{ success := true, content := some imageUrl },
              [ok .auth, ok (.upload image.path false), ok (.insert row)]⟩

/-! ## Resume review -/

/-- The size ceiling of `resumeReview` (line 313): `5 * 1024 * 1024`. -/
def maxResumeSize : Nat := 5 * 1024 * 1024

/-- The fixed head of the prompt built at line 324. -/
def reviewPromptHead : String :=
  "Review the following resume and provide constructive feedback on its strengths, weaknesses, and areas for improvement. Resume Content:\n\n"

/-- Handler `resumeReview` (lines 292–346). -/
def resumeReview (sv : Services) (req : Request) : Run :=
  match req.auth with
  | .error e => ⟨catch500 e, [threw .auth e]⟩
  | .ok userId =>
    match req.file with
    | none =>
      ⟨{ status := 400, success := false, message := some "No resume uploaded." }, [ok .auth]⟩
    | some resume =>
      if req.plan ≠ "premium" then
        ⟨premiumOnly, [ok .auth]⟩
      else if resume.size > maxResumeSize then
        ⟨{ success := false, message := some "Resume file size exceeds allowed size (5MB)." },
          [ok .auth]⟩
      else
        match sv.readFileSync resume.path with
        | .error e => ⟨catch500 e, [ok .auth, threw (.readFileSync resume.path) e]⟩
        | .ok dataBuffer =>
          let t := [ok .auth, ok (.readFileSync resume.path)]
          match sv.pdf dataBuffer with
          | .error e => ⟨catch500 e, t ++ [threw (.pdf dataBuffer) e]⟩
          | .ok text =>
            let t := t ++ [ok (.pdf dataBuffer)]
            let chat : ChatRequest :=
              { model := "gemini-2.0-flash", content := reviewPromptHead ++ text,
                temperature := ⟨7, 1⟩, max_tokens := some 1000 }
            match sv.completion chat with
            | .error e => ⟨catch500 e, t ++ [threw (.completion chat) e]⟩
            | .ok none =>
              ⟨catch500 { message := noChoiceMessage }, t ++ [ok (.completion chat)]⟩
            | .ok (some content) =>
              let t := t ++ [ok (.completion chat)]
              let row : Creation :=
                { user_id := userId, prompt := "Review the uploaded resume",
                  content := content, type := "resume-review" }
              match sv.insert row with
              | .error e => ⟨catch500 e, t ++ [threw (.insert row) e]⟩
              | .ok _ =>
                ⟨{ success := true, content := some content }, t ++ [ok (.insert row)]⟩

/-! ## Observations on a trace -/

/-- Completion-API calls. -/
def isCompletion : Call → Bool
  | .completion _ => true
  | _ => false

/-- Creation-record inserts. -/
def isInsert : Call → Bool
  | .insert _ => true
  | _ => false

/-- Usage-counter updates. -/
def isUpdate : Call → Bool
  | .updateUserMetadata _ _ => true
  | _ => false

/-- Media-store uploads. -/
def isUpload : Call → Bool
  | .upload _ _ => true
  | _ => false

/-- Status queries of the image queue. -/
def isStatus : Call → Bool
  | .hordeStatus _ => true
  | _ => false

/-- The five-second waits of the poll loop. -/
def isSleep : Call → Bool
  | .sleep _ => true
  | _ => false

/-- Reading the uploaded file and extracting its text. -/
def isExtraction : Call → Bool
  | .readFileSync _ => true
  | .pdf _ => true
  | _ => false

/-- Calls to an upstream service: image queue, completion API, document
extraction. -/
def isUpstream : Call → Bool
  | .hordeSubmit _ _ => true
  | .hordeStatus _ => true
  | .completion _ => true
  | .readFileSync _ => true
  | .pdf _ => true
  | _ => false

/-- How many calls of a trace satisfy `p`. -/
def count (p : Call → Bool) (t : List Event) : Nat :=
  t.countP fun ev => p ev.call

/-- The calls of a trace, outcomes dropped. -/
def calls (t : List Event) : List Call :=
  t.map Event.call

/-- The rows a run inserted successfully or tried to insert, in order. -/
def inserts (t : List Event) : List Creation :=
  t.filterMap fun ev => match ev.call with
    | .insert c => some c
    | _ => none

/-- The `(userId, free_usage)` arguments of the counter updates of a trace. -/
def updates (t : List Event) : List (Option String × Int) :=
  t.filterMap fun ev => match ev.call with
    | .updateUserMetadata u n => some (u, n)
    | _ => none

/-- The six exported handlers. -/
def handlers : List (Services → Request → Run) :=
  [generateArticle, generateBlogTitle, generateImage, removeImageBackground,
   removeImageObject, resumeReview]

/-! ## Predicates used in the statements -/

/-- A run that was turned away: failure response and no upstream call, no
upload, no insert. -/
def Untouched (r : Run) : Prop :=
  r.response.success = false ∧ count isUpstream r.trace = 0 ∧
    count isUpload r.trace = 0 ∧ count isInsert r.trace = 0

/-- The test of line 150, `check.data.done && check.data.generations?.length > 0`:
the job reports completion with at least one generation. -/
def ready (d : StatusData) : Bool :=
  d.done && decide (0 < (d.generations.getD []).length)

/-- The calls of `k` poll iterations that found the job not ready: a status
query and a five-second wait each. -/
def waits (id : String) : Nat → List Event
  | 0 => []
  | k + 1 => ok (.hordeStatus id) :: ok (.sleep 5000) :: waits id k

/-- No call of the trace raised an error. -/
def allOk (t : List Event) : Prop :=
  ∀ ev ∈ t, ev.failed = none

/-- The shape of a run under the handler-wide `try`/`catch`: either no call
raised, or exactly the last call raised and the response is the failure body
carrying that error's message. -/
def Caught (r : Run) : Prop :=
  allOk r.trace ∨
    ∃ pre c e, r.trace = pre ++ [threw c e] ∧ allOk pre ∧
      r.response.success = false ∧ r.response.message = some e.message

/-! ## Concrete worlds used to exercise the handlers -/

/-- A world in which every collaborator answers; the image job is done at the
third status query. -/
def happyServices : Services :=
  { AI_HORDE_API_KEY := some "horde-key"
    completion := fun _ => .ok (some "Waves fold into foam")
    insert := fun _ => .ok ()
    updateUserMetadata := fun _ _ => .ok ()
    hordeSubmit := fun _ _ => .ok (some "job-1")
    hordeStatus := fun _ k =>
      .ok (if k < 2 then ⟨false, none⟩
           else ⟨true, some [⟨some "https://horde.example/out.webp"⟩]⟩)
    upload := fun _ _ => .ok ⟨"https://res.cloudinary.example/v1/pid-1.png", "pid-1"⟩
    url := fun public_id effect =>
      "https://res.cloudinary.example/e_" ++ effect ++ "/" ++ public_id
    readFileSync := fun _ => .ok "%PDF-1.4"
    pdf := fun _ => .ok "Jane Doe, engineer" }

/-- The scenario request of the spec: a free caller who has used 3 calls. -/
def haikuRequest : Request :=
  { auth := .ok (some "user_1"), prompt := "Write a haiku about the sea",
    length := some 60, plan := "free", free_usage := 3 }

/-- A free caller whose counter stands at the limit. -/
def exhaustedRequest : Request :=
  { auth := .ok (some "user_1"), prompt := "Ten catchy titles", plan := "free",
    free_usage := 10 }

/-- A free caller with an image, an object label and a 6 MiB file attached. -/
def freeUploadRequest : Request :=
  { auth := .ok (some "user_1"), prompt := "a red fox", object := some "lamp",
    file := some ⟨"uploads/a1", 6291456, "application/pdf"⟩, plan := "free" }

/-- A premium caller asking for an image. -/
def premiumRequest : Request :=
  { auth := .ok (some "user_2"), prompt := "a red fox", plan := "premium" }

/-- The image queue reports the job done at once, with one generation that
carries no `img`. -/
def noImageServices : Services :=
  { happyServices with
    hordeStatus := fun _ _ => .ok ⟨true, some [⟨none⟩]⟩ }

/-- The image queue never reports the job done. -/
def neverDoneServices : Services :=
  { happyServices with
    hordeStatus := fun _ _ => .ok ⟨false, none⟩ }

/-- The image queue first reports the job done with an empty generations list,
then done with one image. -/
def emptyThenImageServices : Services :=
  { happyServices with
    hordeStatus := fun _ k =>
      .ok (if k = 0 then ⟨true, some []⟩
           else ⟨true, some [⟨some "https://horde.example/out.webp"⟩]⟩) }

/-- The identity provider refuses the counter update. -/
def quotaDownServices : Services :=
  { happyServices with
    updateUserMetadata := fun _ _ => .error { message := "Too Many Requests" } }

/-- A premium caller with an image and an object label attached. -/
def premiumUploadRequest : Request :=
  { auth := .ok (some "user_2"), authUserIdProp := some "user_2", object := some "lamp",
    file := some ⟨"uploads/room.jpg", 204800, "image/jpeg"⟩, plan := "premium" }

/-- A request marked premium whose `req.auth()` call throws, with a 6 MiB file. -/
def unauthenticatedBigResume : Request :=
  { auth := .error { message := "Unauthenticated" },
    file := some ⟨"uploads/cv.pdf", 6291456, "application/pdf"⟩, plan := "premium" }

/-- A premium caller with a 6 MiB resume. -/
def bigResumeRequest : Request :=
  { auth := .ok (some "user_2"),
    file := some ⟨"uploads/cv.pdf", 6291456, "application/pdf"⟩, plan := "premium" }

/-- A premium caller who uploads a 200 KiB PNG picture as a resume. -/
def pictureResumeRequest : Request :=
  { auth := .ok (some "user_2"),
    file := some ⟨"uploads/photo.png", 204800, "image/png"⟩, plan := "premium" }

/-- The PDF extractor rejects what it is given. -/
def notPdfServices : Services :=
  { happyServices with
    readFileSync := fun _ => .ok "PNG bytes"
    pdf := fun _ => .error { message := "Invalid PDF structure" } }

/-- The row `removeImageObject` writes for `premiumUploadRequest` in the world
`happyServices`. -/
def lampRow : Creation :=
  { user_id := some "user_2", prompt := "Removed lamp from image",
    content := "https://res.cloudinary.example/e_gen_remove:lamp/pid-1", type := "image" }

/-- A free caller whose counter holds the integer `-9007199254740994`, two
doubles below `-2 ^ 53`. -/
def farNegativeRequest : Request :=
  { auth := .ok (some "user_1"), prompt := "Write a haiku about the sea",
    length := some 60, plan := "free", free_usage := -9007199254740994 }

/-- The PDF extractor accepts data that starts with the PDF signature and
rejects the rest. -/
def pdfOnlyServices : Services :=
  { happyServices with
    readFileSync := fun path =>
      .ok (if path = "uploads/photo.png" then "PNG bytes" else "%PDF-1.4")
    pdf := fun data =>
      if "%PDF".data.isPrefixOf data.data then .ok "Jane Doe, engineer"
      else .error { message := "Invalid PDF structure" } }

/-! ## Auxiliary lemmas -/

/-- An integer of magnitude below `2 ^ 53` is a double. -/
theorem roundToDouble_small (z : Int) (h : z.natAbs < 2 ^ 53) : roundToDouble z = z := by
  unfold roundToDouble
  exact if_pos h

/-- Adding one to an integer `n` with `-2 ^ 53 ≤ n < 10` is exact. -/
theorem jsAdd_one_exact (n : Int) (hlow : -9007199254740992 ≤ n) (hhigh : n < 10) :
    jsAdd n 1 = n + 1 := by
  unfold jsAdd
  apply roundToDouble_small
  have : (2 : Nat) ^ 53 = 9007199254740992 := by norm_num
  omega

/-- A successful text generation made exactly the completion call, the insert
and, for a non-premium caller, the counter update, in this order. -/
theorem generateText_success (sv : Services) (req : Request) (userId : Option String)
    (max_tokens : Option Int) (type : String) (t : List Event)
    (h : (generateText sv req userId max_tokens type t).response.success = true) :
    ∃ content : String,
      (generateText sv req userId max_tokens type t).response =
        { success := true, content := some content } ∧
      (generateText sv req userId max_tokens type t).trace =
        t ++ [ok (.completion
                { model := "gemini-2.0-flash", content := req.prompt,
                  temperature := ⟨7, 1⟩, max_tokens := max_tokens }),
              ok (.insert { user_id := userId, prompt := req.prompt, content := content,
                            type := type })] ++
          (if req.plan ≠ "premium" then
            [ok (.updateUserMetadata userId (jsAdd req.free_usage 1))] else []) := by
  unfold generateText at h ⊢
  simp only at h ⊢
  split at h
  · simp [catchJson] at h
  · simp [catchJson] at h
  · rename_i content hc
    split at h
    · simp [catchJson] at h
    · split at h
      · split at h
        · simp [catchJson] at h
        · rename_i hp _ _ hu
          refine ⟨content, ?_, ?_⟩ <;> simp [hu, hp]
      · rename_i hp
        refine ⟨content, ?_, ?_⟩ <;> simp [hp]

/-- An iteration that finds the job not ready counts an attempt, waits and
goes on. -/
theorem poll_step_notReady (sv : Services) (id : String) (n a : Nat) (d : StatusData)
    (hq : sv.hordeStatus id a = .ok d) (hr : ready d = false) :
    poll sv id (n + 1) a =
      ((poll sv id n (a + 1)).1,
        ok (.hordeStatus id) :: ok (.sleep 5000) :: (poll sv id n (a + 1)).2) := by
  obtain ⟨done, gens⟩ := d
  cases done with
  | false => simp [poll, hq]
  | true =>
    cases gens with
    | none => simp [poll, hq]
    | some l =>
      cases l with
      | nil => simp [poll, hq]
      | cons g rest => simp [ready] at hr

/-- An iteration that finds the job done with a first generation leaves the
loop: with the image when `img` is truthy, with an error when it is not. -/
theorem poll_step_ready (sv : Services) (id : String) (n a : Nat) (g : Generation)
    (rest : List Generation) (hq : sv.hordeStatus id a = .ok ⟨true, some (g :: rest)⟩) :
    poll sv id (n + 1) a =
      if truthy g.img then (.image (g.img.getD ""), [ok (.hordeStatus id)])
      else (.thrown { message := "AI Horde returned no image data" }, [ok (.hordeStatus id)]) := by
  simp [poll, hq]

/-- After `k` not-ready answers the loop has made `k` queries and `k` waits and
continues with `k` attempts counted. -/
theorem poll_waits (sv : Services) (id : String) :
    ∀ (k n a : Nat), (∀ j < k, ∃ d, sv.hordeStatus id (a + j) = .ok d ∧ ready d = false) →
      poll sv id (n + k) a =
        ((poll sv id n (a + k)).1, waits id k ++ (poll sv id n (a + k)).2)
  | 0, n, a, _ => by simp [waits]
  | k + 1, n, a, h => by
    obtain ⟨d, hq, hr⟩ := h 0 (Nat.succ_pos k)
    have h' : ∀ j < k, ∃ d, sv.hordeStatus id (a + 1 + j) = .ok d ∧ ready d = false := by
      intro j hj
      have := h (j + 1) (Nat.succ_lt_succ hj)
      rwa [show a + (j + 1) = a + 1 + j by omega] at this
    have ih := poll_waits sv id k n (a + 1) h'
    rw [show n + (k + 1) = (n + k) + 1 by omega, poll_step_notReady sv id (n + k) a d hq hr, ih]
    simp [waits, show a + 1 + k = a + (k + 1) by omega]

theorem count_append (p : Call → Bool) (s t : List Event) :
    count p (s ++ t) = count p s + count p t := by
  simp [count]

theorem count_cons (p : Call → Bool) (ev : Event) (t : List Event) :
    count p (ev :: t) = (if p ev.call then 1 else 0) + count p t := by
  simp [count, List.countP_cons, Nat.add_comm]

theorem count_nil (p : Call → Bool) : count p [] = 0 := rfl

theorem count_waits (id : String) (k : Nat) :
    count isStatus (waits id k) = k ∧ count isSleep (waits id k) = k ∧
    count isUpload (waits id k) = 0 ∧ count isInsert (waits id k) = 0 := by
  induction k with
  | zero => simp [waits, count]
  | succ k ih =>
    obtain ⟨h1, h2, h3, h4⟩ := ih
    simp [waits, count_cons, ok, isStatus, isSleep, isUpload, isInsert, h1, h2, h3, h4]
    omega

/-- The run of `generateImage` once the job id is obtained, in terms of the
poll loop. -/
theorem generateImage_polled (sv : Services) (req : Request) (userId : Option String)
    (id : String) (hauth : req.auth = .ok userId) (hplan : req.plan = "premium")
    (hkey : truthy sv.AI_HORDE_API_KEY = true)
    (hsubmit : sv.hordeSubmit req.prompt (sv.AI_HORDE_API_KEY.getD "") = .ok (some id))
    (hid : id ≠ "") :
    generateImage sv req =
      match (poll sv id maxAttempts 0).1 with
      | .thrown e =>
        ⟨catchImage e,
          [ok .auth, ok (.hordeSubmit req.prompt (sv.AI_HORDE_API_KEY.getD ""))] ++
            (poll sv id maxAttempts 0).2⟩
      | .exhausted =>
        ⟨catchImage { message := "Image generation timed out" },
          [ok .auth, ok (.hordeSubmit req.prompt (sv.AI_HORDE_API_KEY.getD ""))] ++
            (poll sv id maxAttempts 0).2⟩
      | .image img =>
        ⟨(storeImage sv req userId img).response,
          [ok .auth, ok (.hordeSubmit req.prompt (sv.AI_HORDE_API_KEY.getD ""))] ++
            (poll sv id maxAttempts 0).2 ++ (storeImage sv req userId img).trace⟩ := by
  have hid' : truthy (some id) = true := by simp [truthy, hid]
  simp only [generateImage, hauth, hplan, hkey, hsubmit, hid']
  simp

theorem allOk_nil : allOk [] := by
  intro ev h
  cases h

theorem allOk_cons_ok (c : Call) (t : List Event) (h : allOk t) : allOk (ok c :: t) := by
  intro ev hev
  rcases List.mem_cons.mp hev with rfl | hmem
  · rfl
  · exact h ev hmem

theorem allOk_append (s t : List Event) (hs : allOk s) (ht : allOk t) : allOk (s ++ t) := by
  intro ev hev
  rcases List.mem_append.mp hev with h | h
  · exact hs ev h
  · exact ht ev h

/-- What `Caught` says about any call of the trace that raised. -/
theorem Caught.spec (r : Run) (hc : Caught r) (pre post : List Event) (ev : Event)
    (m : String) (htrace : r.trace = pre ++ ev :: post) (hfail : ev.failed = some m) :
    post = [] ∧ r.response.success = false ∧ r.response.message = some m := by
  rcases hc with hall | ⟨pre', c, e, htr, hpre, hs, hm⟩
  · have hmem : ev ∈ r.trace := by
      rw [htrace]
      exact List.mem_append_right _ (List.mem_cons_self _ _)
    rw [hall ev hmem] at hfail
    cases hfail
  · rw [htr] at htrace
    rcases List.eq_nil_or_concat post with hnil | ⟨q, z, hq⟩
    · subst hnil
      have h2 := (List.append_inj' htrace rfl).2
      have hev : threw c e = ev := by simpa using h2
      subst hev
      have hme : e.message = m := by simpa [threw] using hfail
      subst hme
      exact ⟨rfl, hs, hm⟩
    · subst hq
      have h3 : pre' ++ [threw c e] = (pre ++ ev :: q) ++ [z] := by
        rw [htrace]
        simp
      have h4 := (List.append_inj' h3 rfl).1
      have hmem : ev ∈ pre' := by
        rw [h4]
        exact List.mem_append_right _ (List.mem_cons_self _ _)
      rw [hpre ev hmem] at hfail
      cases hfail

/-- The poll loop makes status queries and waits only; a query that raises is
its last call and its error is the one the loop throws. -/
theorem poll_trace (sv : Services) (id : String) :
    ∀ (n a : Nat),
      (allOk (poll sv id n a).2 ∨
        ∃ pre e, (poll sv id n a).2 = pre ++ [threw (.hordeStatus id) e] ∧ allOk pre ∧
          (poll sv id n a).1 = .thrown e) ∧
      inserts (poll sv id n a).2 = [] ∧ count isUpload (poll sv id n a).2 = 0
  | 0, a => by simp [poll, allOk_nil, inserts, count]
  | n + 1, a => by
    cases hq : sv.hordeStatus id a with
    | error e =>
      refine ⟨Or.inr ⟨[], e, ?_, allOk_nil, ?_⟩, ?_, ?_⟩ <;>
        simp [poll, hq, inserts, count, threw, isUpload]
    | ok d =>
      by_cases hr : ready d = false
      · obtain ⟨ih, ih2, ih3⟩ := poll_trace sv id n (a + 1)
        rw [poll_step_notReady sv id n a d hq hr]
        refine ⟨?_, ?_, ?_⟩
        · rcases ih with h | ⟨pre, e, h1, h2, h3⟩
          · exact Or.inl (allOk_cons_ok _ _ (allOk_cons_ok _ _ h))
          · refine Or.inr ⟨ok (.hordeStatus id) :: ok (.sleep 5000) :: pre, e, ?_,
              allOk_cons_ok _ _ (allOk_cons_ok _ _ h2), h3⟩
            simp [h1]
        · simpa [inserts, ok] using ih2
        · simp only [count_cons, ih3]
          simp [ok, isUpload]
      · obtain ⟨done, gens⟩ := d
        have hd : done = true ∧ ∃ g rest, gens = some (g :: rest) := by
          cases done <;> rcases gens with _ | _ | ⟨g, rest⟩ <;> simp [ready] at hr ⊢
        obtain ⟨rfl, g, rest, rfl⟩ := hd
        rw [poll_step_ready sv id n a g rest hq]
        split <;>
          exact ⟨Or.inl (allOk_cons_ok _ _ allOk_nil), by simp [inserts, ok],
            by simp [count, ok, isUpload]⟩

theorem allOk_cons_iff (ev : Event) (t : List Event) :
    allOk (ev :: t) ↔ ev.failed = none ∧ allOk t := by
  simp [allOk]

theorem allOk_append_iff (s t : List Event) : allOk (s ++ t) ↔ allOk s ∧ allOk t := by
  constructor
  · intro h
    exact ⟨fun ev hev => h ev (List.mem_append_left _ hev),
      fun ev hev => h ev (List.mem_append_right _ hev)⟩
  · rintro ⟨hs, ht⟩
    exact allOk_append s t hs ht

theorem caught_generateText (sv : Services) (req : Request) (userId : Option String)
    (max_tokens : Option Int) (type : String) (t : List Event) (ht : allOk t) :
    Caught (generateText sv req userId max_tokens type t) := by
  unfold generateText
  simp only
  split
  · exact Or.inr ⟨_, _, _, rfl, ht, rfl, rfl⟩
  · exact Or.inl (by simp [allOk_append_iff, allOk_cons_iff, allOk_nil, ok, ht])
  · split
    · exact Or.inr ⟨_, _, _, rfl,
        by simp [allOk_append_iff, allOk_cons_iff, allOk_nil, ok, ht], rfl, rfl⟩
    · split
      · split
        · exact Or.inr ⟨_, _, _, rfl,
            by simp [allOk_append_iff, allOk_cons_iff, allOk_nil, ok, ht], rfl, rfl⟩
        · exact Or.inl (by simp [allOk_append_iff, allOk_cons_iff, allOk_nil, ok, ht])
      · exact Or.inl (by simp [allOk_append_iff, allOk_cons_iff, allOk_nil, ok, ht])

theorem caught_generateArticle (sv : Services) (req : Request) :
    Caught (generateArticle sv req) := by
  unfold generateArticle
  split
  · exact Or.inr ⟨[], _, _, rfl, allOk_nil, rfl, rfl⟩
  · split
    · exact Or.inl (by simp [allOk_cons_iff, allOk_nil, ok])
    · exact caught_generateText _ _ _ _ _ _ (by simp [allOk_cons_iff, allOk_nil, ok])

theorem caught_generateBlogTitle (sv : Services) (req : Request) :
    Caught (generateBlogTitle sv req) := by
  unfold generateBlogTitle
  split
  · exact Or.inr ⟨[], _, _, rfl, allOk_nil, rfl, rfl⟩
  · split
    · exact Or.inl (by simp [allOk_cons_iff, allOk_nil, ok])
    · exact caught_generateText _ _ _ _ _ _ (by simp [allOk_cons_iff, allOk_nil, ok])

theorem caught_storeImage (sv : Services) (req : Request) (userId : Option String)
    (img : String) : Caught (storeImage sv req userId img) := by
  unfold storeImage
  simp only
  split
  · exact Or.inr ⟨[], _, _, rfl, allOk_nil, rfl, rfl⟩
  · split
    · exact Or.inr ⟨[_], _, _, rfl, by simp [allOk_cons_iff, allOk_nil, ok], rfl, rfl⟩
    · exact Or.inl (by simp [allOk_cons_iff, allOk_nil, ok])

theorem caught_generateImage (sv : Services) (req : Request) :
    Caught (generateImage sv req) := by
  unfold generateImage
  split
  · exact Or.inr ⟨[], _, _, rfl, allOk_nil, rfl, rfl⟩
  · rename_i userId hauth
    split
    · exact Or.inl (by simp [allOk_cons_iff, allOk_nil, ok])
    · split
      · exact Or.inl (by simp [allOk_cons_iff, allOk_nil, ok])
      · simp only
        split
        · exact Or.inr ⟨[_], _, _, rfl, by simp [allOk_cons_iff, allOk_nil, ok], rfl, rfl⟩
        · split
          · exact Or.inl (by simp [allOk_cons_iff, allOk_nil, ok])
          · rename_i submitId _ _
            obtain ⟨hp, -, -⟩ := poll_trace sv (submitId.getD "") maxAttempts 0
            split
            · rename_i e he
              rcases hp with h | ⟨pre, e', h1, h2, h3⟩
              · exact Or.inl (by simp [allOk_append_iff, allOk_cons_iff, allOk_nil, ok, h])
              · rw [he] at h3
                cases h3
                refine Or.inr ⟨[ok .auth, ok (.hordeSubmit req.prompt
                  (sv.AI_HORDE_API_KEY.getD ""))] ++ pre, .hordeStatus (submitId.getD ""),
                  e, ?_, ?_, rfl, rfl⟩
                · show _ ++ _ = _
                  rw [h1, List.append_assoc]
                · simp [allOk_append_iff, allOk_cons_iff, allOk_nil, ok, h2]
            · rename_i he
              rcases hp with h | ⟨pre, e', h1, h2, h3⟩
              · exact Or.inl (by simp [allOk_append_iff, allOk_cons_iff, allOk_nil, ok, h])
              · rw [he] at h3
                cases h3
            · rename_i img he
              rcases hp with h | ⟨pre, e', h1, h2, h3⟩
              · rcases caught_storeImage sv req userId img with
                  hs | ⟨pre, c, e, hs1, hs2, hs3, hs4⟩
                · exact Or.inl
                    (by simp [allOk_append_iff, allOk_cons_iff, allOk_nil, ok, h, hs])
                · refine Or.inr ⟨([ok .auth, ok (.hordeSubmit req.prompt
                    (sv.AI_HORDE_API_KEY.getD ""))] ++
                      (poll sv (submitId.getD "") maxAttempts 0).2) ++ pre, c, e, ?_, ?_,
                    hs3, hs4⟩
                  · show _ ++ _ = _
                    rw [hs1]
                    simp only [List.append_assoc]
                  · simp [allOk_append_iff, allOk_cons_iff, allOk_nil, ok, h, hs2]
              · rw [he] at h3
                cases h3

theorem caught_removeImageBackground (sv : Services) (req : Request) :
    Caught (removeImageBackground sv req) := by
  unfold removeImageBackground
  simp only
  split
  · exact Or.inl allOk_nil
  · split
    · exact Or.inl allOk_nil
    · split
      · exact Or.inr ⟨[], _, _, rfl, allOk_nil, rfl, rfl⟩
      · split
        · exact Or.inr ⟨[_], _, _, rfl, by simp [allOk_cons_iff, allOk_nil, ok], rfl, rfl⟩
        · exact Or.inl (by simp [allOk_cons_iff, allOk_nil, ok])

theorem caught_removeImageObject (sv : Services) (req : Request) :
    Caught (removeImageObject sv req) := by
  unfold removeImageObject
  split
  · exact Or.inr ⟨[], _, _, rfl, allOk_nil, rfl, rfl⟩
  · split
    · exact Or.inl (by simp [allOk_cons_iff, allOk_nil, ok])
    · split
      · exact Or.inl (by simp [allOk_cons_iff, allOk_nil, ok])
      · split
        · exact Or.inl (by simp [allOk_cons_iff, allOk_nil, ok])
        · simp only
          split
          · exact Or.inr ⟨[_], _, _, rfl, by simp [allOk_cons_iff, allOk_nil, ok], rfl, rfl⟩
          · split
            · exact Or.inr
                ⟨[_, _], _, _, rfl, by simp [allOk_cons_iff, allOk_nil, ok], rfl, rfl⟩
            · exact Or.inl (by simp [allOk_cons_iff, allOk_nil, ok])

theorem caught_resumeReview (sv : Services) (req : Request) :
    Caught (resumeReview sv req) := by
  unfold resumeReview
  split
  · exact Or.inr ⟨[], _, _, rfl, allOk_nil, rfl, rfl⟩
  · split
    · exact Or.inl (by simp [allOk_cons_iff, allOk_nil, ok])
    · split
      · exact Or.inl (by simp [allOk_cons_iff, allOk_nil, ok])
      · split
        · exact Or.inl (by simp [allOk_cons_iff, allOk_nil, ok])
        · split
          · exact Or.inr ⟨[_], _, _, rfl, by simp [allOk_cons_iff, allOk_nil, ok], rfl, rfl⟩
          · simp only
            split
            · exact Or.inr
                ⟨[_, _], _, _, rfl, by simp [allOk_cons_iff, allOk_nil, ok], rfl, rfl⟩
            · split
              · exact Or.inr
                  ⟨[_, _, _], _, _, rfl, by simp [allOk_cons_iff, allOk_nil, ok], rfl, rfl⟩
              · exact Or.inl (by simp [allOk_cons_iff, allOk_nil, ok])
              · split
                · exact Or.inr ⟨[_, _, _, _], _, _, rfl,
                    by simp [allOk_cons_iff, allOk_nil, ok], rfl, rfl⟩
                · exact Or.inl (by simp [allOk_cons_iff, allOk_nil, ok])

theorem inserts_append (s t : List Event) : inserts (s ++ t) = inserts s ++ inserts t := by
  simp [inserts, List.filterMap_append]

/-- The rows and the success answer of steps 3 and 4 of `generateImage` carry
the `secure_url` the upload returned. -/
theorem storeImage_content (sv : Services) (req : Request) (userId : Option String)
    (img : String) :
    (∀ c ∈ inserts (storeImage sv req userId img).trace,
      c.type = "image" ∧
        ∃ r, sv.upload (uploadSource img) false = .ok r ∧
          ok (.upload (uploadSource img) false) ∈ (storeImage sv req userId img).trace ∧
          c.content = r.secure_url) ∧
    ((storeImage sv req userId img).response.success = true →
      ∃ r, sv.upload (uploadSource img) false = .ok r ∧
        (storeImage sv req userId img).response.content = some r.secure_url ∧
        (inserts (storeImage sv req userId img).trace).map Creation.content
          = [r.secure_url]) := by
  unfold storeImage
  simp only
  split
  · simp [inserts, threw, catchImage]
  · rename_i r hr
    split
    · refine ⟨?_, by simp [catchImage]⟩
      intro c hc
      simp [inserts, threw, ok] at hc
      subst hc
      exact ⟨rfl, r, hr, by simp [ok], rfl⟩
    · refine ⟨?_, fun _ => ⟨r, hr, rfl, by simp [inserts, ok]⟩⟩
      intro c hc
      simp [inserts, ok] at hc
      subst hc
      exact ⟨rfl, r, hr, by simp [ok], rfl⟩

/-- Either `generateImage` failed before step 3, with nothing inserted, or it
ran steps 3 and 4 after calls that inserted nothing. -/
theorem generateImage_shape (sv : Services) (req : Request) :
    (inserts (generateImage sv req).trace = [] ∧
      (generateImage sv req).response.success = false) ∨
    ∃ userId img pre,
      generateImage sv req =
        ⟨(storeImage sv req userId img).response,
          pre ++ (storeImage sv req userId img).trace⟩ ∧
      inserts pre = [] := by
  unfold generateImage
  split
  · exact Or.inl (by simp [inserts, threw, catchImage])
  · rename_i userId hauth
    split
    · exact Or.inl (by simp [inserts, ok, premiumOnly])
    · split
      · exact Or.inl (by simp [inserts, ok, catchImage])
      · simp only
        split
        · exact Or.inl (by simp [inserts, ok, threw, catchImage])
        · split
          · exact Or.inl (by simp [inserts, ok, catchImage])
          · rename_i submitId _ _
            obtain ⟨-, hp, -⟩ := poll_trace sv (submitId.getD "") maxAttempts 0
            split
            · exact Or.inl ⟨by rw [inserts_append, hp]; simp [inserts, ok], by simp [catchImage]⟩
            · exact Or.inl ⟨by rw [inserts_append, hp]; simp [inserts, ok], by simp [catchImage]⟩
            · rename_i img he
              exact Or.inr ⟨userId, img, _, rfl, by rw [inserts_append, hp]; simp [inserts, ok]⟩

/-! ## Entitlement gates -/

/-- C1: for a caller whose auth lookup succeeds, whose plan is not "premium"
and whose free_usage is at least 10, `generateArticle` and `generateBlogTitle`
answer `{success:false, message:"Limit reached. Upgrade to continue."}` and
make no completion call, no insert and no counter update. -/
theorem quota_gate_rejects (sv : Services) (req : Request) (userId : Option String)
    (hauth : req.auth = .ok userId) (hplan : req.plan ≠ "premium")
    (husage : req.free_usage ≥ 10) :
    ((generateArticle sv req).response =
        { status := 200, success := false,
          message := some "Limit reached. Upgrade to continue.",
          content := none, details := none } ∧
      count isCompletion (generateArticle sv req).trace = 0 ∧
      count isInsert (generateArticle sv req).trace = 0 ∧
      count isUpdate (generateArticle sv req).trace = 0) ∧
    ((generateBlogTitle sv req).response =
        { status := 200, success := false,
          message := some "Limit reached. Upgrade to continue.",
          content := none, details := none } ∧
      count isCompletion (generateBlogTitle sv req).trace = 0 ∧
      count isInsert (generateBlogTitle sv req).trace = 0 ∧
      count isUpdate (generateBlogTitle sv req).trace = 0) := by
  have hgate : req.plan ≠ "premium" ∧ req.free_usage ≥ 10 := ⟨hplan, husage⟩
  constructor
  · simp only [generateArticle, hauth, if_pos hgate]
    simp [limitReached, count, ok, isCompletion, isInsert, isUpdate]
  · simp only [generateBlogTitle, hauth, if_pos hgate]
    simp [limitReached, count, ok, isCompletion, isInsert, isUpdate]

/-- The scenario `plan = "free"`, `free_usage = 10` of C1, on both handlers. -/
theorem quota_gate_rejects_witness :
    exhaustedRequest.auth = .ok (some "user_1") ∧ exhaustedRequest.plan ≠ "premium" ∧
    exhaustedRequest.free_usage ≥ 10 ∧
    (generateArticle happyServices exhaustedRequest).response = limitReached ∧
    (generateArticle happyServices exhaustedRequest).trace = [ok .auth] ∧
    (generateBlogTitle happyServices exhaustedRequest).response = limitReached :=
  have h := quota_gate_rejects happyServices exhaustedRequest (some "user_1") rfl
    (by decide) (by decide)
  ⟨rfl, by decide, by decide, h.1.1, by decide, h.2.1⟩

/-- C2, as stated, fails for an integer below `-2 ^ 53`: with
`free_usage = -9007199254740994` on the free plan every stage of
`generateArticle` succeeds and the one counter update is sent with
`free_usage = -9007199254740992`, which is not `n + 1 = -9007199254740993`:
the sum is a JavaScript number and that integer is not one. -/
theorem usage_counter_update_rounds :
    farNegativeRequest.plan ≠ "premium" ∧
    farNegativeRequest.free_usage = -9007199254740994 ∧
    (generateArticle happyServices farNegativeRequest).response.success = true ∧
    updates (generateArticle happyServices farNegativeRequest).trace =
      [(some "user_1", -9007199254740992)] ∧
    updates (generateArticle happyServices farNegativeRequest).trace ≠
      [(some "user_1", -9007199254740994 + 1)] := by
  decide

/-- C2 (amended): on `generateArticle` and `generateBlogTitle`, when the
response is a success and `free_usage` is an integer `n` with `-2 ^ 53 ≤ n`
(`2 ^ 53 = 9007199254740992`), a non-premium caller gets exactly one counter
update, for the user id of the auth lookup, with `free_usage = n + 1`, and a
premium caller gets none.  In the scenario `plan = "free"`, `free_usage = 3` on
`generateArticle` there is one insert, of type `article`, and one update, with
`free_usage = 4`. -/
theorem usage_counter_update (sv : Services) (req : Request) (n : Int)
    (hn : req.free_usage = n) (hlow : -9007199254740992 ≤ n) :
    (∀ h ∈ [generateArticle, generateBlogTitle],
      (h sv req).response.success = true →
        (req.plan ≠ "premium" →
          ∃ userId, req.auth = .ok userId ∧
            updates (h sv req).trace = [(userId, n + 1)]) ∧
        (req.plan = "premium" → updates (h sv req).trace = [])) ∧
    ((generateArticle sv haikuRequest).response.success = true →
      (inserts (generateArticle sv haikuRequest).trace).map Creation.type = ["article"] ∧
      updates (generateArticle sv haikuRequest).trace = [(some "user_1", 4)]) := by
  subst hn
  have key : ∀ (req : Request) (max_tokens : Option Int) (type : String) (h : Run),
      (h = match req.auth with
        | .error e => ⟨catchJson e, [threw .auth e]⟩
        | .ok userId =>
          if req.plan ≠ "premium" ∧ req.free_usage ≥ 10 then ⟨limitReached, [ok .auth]⟩
          else generateText sv req userId max_tokens type [ok .auth]) →
      h.response.success = true →
        ∃ userId content, req.auth = .ok userId ∧
          ¬ (req.plan ≠ "premium" ∧ req.free_usage ≥ 10) ∧
          h.trace = [ok .auth] ++ [ok (.completion
                { model := "gemini-2.0-flash", content := req.prompt,
                  temperature := ⟨7, 1⟩, max_tokens := max_tokens }),
              ok (.insert { user_id := userId, prompt := req.prompt, content := content,
                            type := type })] ++
            (if req.plan ≠ "premium" then
              [ok (.updateUserMetadata userId (jsAdd req.free_usage 1))] else []) := by
    intro req max_tokens type h hdef hs
    subst hdef
    split at hs
    · simp [catchJson] at hs
    · rename_i userId hauth
      split at hs
      · simp [limitReached] at hs
      · rename_i hgate
        obtain ⟨content, -, htr⟩ := generateText_success sv req userId max_tokens type _ hs
        refine ⟨userId, content, hauth, hgate, ?_⟩
        simp only [hauth, if_neg hgate]
        exact htr
  refine ⟨?_, ?_⟩
  · intro h hmem hs
    have hcases : h = generateArticle ∨ h = generateBlogTitle := by simpa using hmem
    have hrun : ∃ userId content max_tokens type, req.auth = .ok userId ∧
        ¬ (req.plan ≠ "premium" ∧ req.free_usage ≥ 10) ∧
        (h sv req).trace = [ok .auth] ++ [ok (.completion
                { model := "gemini-2.0-flash", content := req.prompt,
                  temperature := ⟨7, 1⟩, max_tokens := max_tokens }),
              ok (.insert { user_id := userId, prompt := req.prompt, content := content,
                            type := type })] ++
            (if req.plan ≠ "premium" then
              [ok (.updateUserMetadata userId (jsAdd req.free_usage 1))] else []) := by
      rcases hcases with rfl | rfl
      · obtain ⟨u, c, h1, h2, h3⟩ := key req req.length "article" _ rfl hs
        exact ⟨u, c, _, _, h1, h2, h3⟩
      · obtain ⟨u, c, h1, h2, h3⟩ := key req (some 100) "blog-title" _ rfl hs
        exact ⟨u, c, _, _, h1, h2, h3⟩
    obtain ⟨userId, content, max_tokens, type, hauth, hgate, htr⟩ := hrun
    constructor
    · intro hp
      have hhigh : req.free_usage < 10 := by
        by_contra hge
        exact hgate ⟨hp, by omega⟩
      refine ⟨userId, hauth, ?_⟩
      rw [htr, jsAdd_one_exact req.free_usage hlow hhigh]
      simp [updates, ok, hp]
    · intro hp
      rw [htr]
      simp [updates, ok, hp]
  · intro hs
    obtain ⟨u, c, h1, -, h2⟩ := key haikuRequest haikuRequest.length "article" _ rfl hs
    have hu : u = some "user_1" := by
      have : (Except.ok (some "user_1") : Except JsError (Option String)) = .ok u := h1
      injection this with h'
      exact h'.symm
    subst hu
    have h3 : (generateArticle sv haikuRequest).trace = _ := h2
    rw [h3]
    have hp : haikuRequest.plan ≠ "premium" := by decide
    have hf : jsAdd haikuRequest.free_usage 1 = 4 := by decide
    simp [inserts, updates, ok, hp, hf]

/-- The spec scenario run against a world in which every collaborator answers. -/
theorem usage_counter_update_witness :
    haikuRequest.free_usage = 3 ∧
    (generateArticle happyServices haikuRequest).response.success = true ∧
    updates (generateArticle happyServices haikuRequest).trace = [(some "user_1", 4)] ∧
    (inserts (generateArticle happyServices haikuRequest).trace).map Creation.type
      = ["article"] :=
  have h := usage_counter_update happyServices haikuRequest 3 rfl (by decide)
  have hs : (generateArticle happyServices haikuRequest).response.success = true := by decide
  ⟨rfl, hs, (h.2 hs).2, (h.2 hs).1⟩

/-- C3: a caller whose plan is not "premium" is turned away by `generateImage`,
`removeImageBackground`, `removeImageObject` and `resumeReview` whatever the
rest of the request holds: the response has `success = false` and the handler
made no upstream call (image queue, completion API, document extraction), no
media-store upload and no insert. -/
theorem premium_gate_rejects (sv : Services) (req : Request)
    (hplan : req.plan ≠ "premium") :
    Untouched (generateImage sv req) ∧ Untouched (removeImageBackground sv req) ∧
    Untouched (removeImageObject sv req) ∧ Untouched (resumeReview sv req) := by
  refine ⟨?_, ?_, ?_, ?_⟩
  · unfold generateImage
    split
    · simp [Untouched, catchImage, count, threw, isUpstream, isUpload, isInsert]
    · simp [Untouched, hplan, premiumOnly, count, ok, isUpstream, isUpload, isInsert]
  · unfold removeImageBackground
    split
    · simp [Untouched, count]
    · simp [Untouched, hplan, premiumOnly, count]
  · unfold removeImageObject
    split
    · simp [Untouched, catch500, count, threw, isUpstream, isUpload, isInsert]
    · split
      · simp [Untouched, count, ok, isUpstream, isUpload, isInsert]
      · split
        · simp [Untouched, count, ok, isUpstream, isUpload, isInsert]
        · simp [Untouched, hplan, premiumOnly, count, ok, isUpstream, isUpload, isInsert]
  · unfold resumeReview
    split
    · simp [Untouched, catch500, count, threw, isUpstream, isUpload, isInsert]
    · split
      · simp [Untouched, count, ok, isUpstream, isUpload, isInsert]
      · simp [Untouched, hplan, premiumOnly, count, ok, isUpstream, isUpload, isInsert]

/-- A free caller who sends a prompt, a file and an object label is turned
away by all four premium-only handlers. -/
theorem premium_gate_rejects_witness :
    freeUploadRequest.plan ≠ "premium" ∧
    Untouched (generateImage happyServices freeUploadRequest) ∧
    Untouched (removeImageBackground happyServices freeUploadRequest) ∧
    Untouched (removeImageObject happyServices freeUploadRequest) ∧
    Untouched (resumeReview happyServices freeUploadRequest) :=
  ⟨by decide, premium_gate_rejects happyServices freeUploadRequest (by decide)⟩

/-! ## The poll loop of `generateImage` -/

/-- C4, as stated, fails: the first status response reports `done = true` with
one generation, yet the handler makes no upload, because that generation has
no `img`; it answers with the error "AI Horde returned no image data". -/
theorem poll_done_without_img_no_upload :
    premiumRequest.plan = "premium" ∧
    noImageServices.hordeSubmit "a red fox" "horde-key" = .ok (some "job-1") ∧
    noImageServices.hordeStatus "job-1" 0 = .ok ⟨true, some [⟨none⟩]⟩ ∧
    (generateImage noImageServices premiumRequest).trace =
      [ok .auth, ok (.hordeSubmit "a red fox" "horde-key"), ok (.hordeStatus "job-1")] ∧
    count isUpload (generateImage noImageServices premiumRequest).trace = 0 ∧
    (generateImage noImageServices premiumRequest).response =
      { success := false, message := some "AI Horde returned no image data" } :=
  ⟨rfl, rfl, rfl, by decide, by decide, by decide⟩

/-- C4 (amended): in `generateImage`, premium caller, job id obtained, for
every `k` with `1 ≤ k ≤ 20`: if the first `k - 1` status responses are not
ready and the `k`-th reports `done = true` with at least one generation whose
first generation has a non-empty `img`, the handler makes exactly `k` status
queries and `k - 1` five-second waits, and the call right after the `k`-th
query is the media-store upload of that image. -/
theorem poll_stops_at_first_image (sv : Services) (req : Request)
    (userId : Option String) (id : String) (k : Nat) (g : Generation)
    (rest : List Generation) (img : String)
    (hauth : req.auth = .ok userId) (hplan : req.plan = "premium")
    (hkey : truthy sv.AI_HORDE_API_KEY = true)
    (hsubmit : sv.hordeSubmit req.prompt (sv.AI_HORDE_API_KEY.getD "") = .ok (some id))
    (hid : id ≠ "") (hk1 : 1 ≤ k) (hk : k ≤ 20)
    (hwait : ∀ j < k - 1, ∃ d, sv.hordeStatus id j = .ok d ∧ ready d = false)
    (hdone : sv.hordeStatus id (k - 1) = .ok ⟨true, some (g :: rest)⟩)
    (himg : g.img = some img) (hne : img ≠ "") :
    count isStatus (generateImage sv req).trace = k ∧
    count isSleep (generateImage sv req).trace = k - 1 ∧
    ∃ tail, calls (generateImage sv req).trace =
      .auth :: .hordeSubmit req.prompt (sv.AI_HORDE_API_KEY.getD "") ::
        (calls (waits id (k - 1)) ++
          .hordeStatus id :: .upload (uploadSource img) false :: tail) := by
  have hw : ∀ j < k - 1, ∃ d, sv.hordeStatus id (0 + j) = .ok d ∧ ready d = false := by
    simpa using hwait
  have hpoll : poll sv id maxAttempts 0 =
      (.image img, waits id (k - 1) ++ [ok (.hordeStatus id)]) := by
    have h1 := poll_waits sv id (k - 1) (20 - k + 1) 0 hw
    have h2 := poll_step_ready sv id (20 - k) (0 + (k - 1)) g rest (by simpa using hdone)
    rw [show maxAttempts = 20 - k + 1 + (k - 1) by unfold maxAttempts; omega, h1, h2]
    simp [himg, truthy, hne]
  have hstore : ∃ tail, calls (storeImage sv req userId img).trace =
      .upload (uploadSource img) false :: tail ∧
      count isStatus (storeImage sv req userId img).trace = 0 ∧
      count isSleep (storeImage sv req userId img).trace = 0 := by
    unfold storeImage
    simp only
    split
    · exact ⟨[], rfl, by simp [threw, count, isStatus], by simp [threw, count, isSleep]⟩
    · split
      · exact ⟨_, rfl, by simp [threw, ok, count, isStatus], by simp [threw, ok, count, isSleep]⟩
      · exact ⟨_, rfl, by simp [ok, count, isStatus], by simp [ok, count, isSleep]⟩
  obtain ⟨tail, hcalls, hs1, hs2⟩ := hstore
  obtain ⟨c1, c2, -, -⟩ := count_waits id (k - 1)
  rw [generateImage_polled sv req userId id hauth hplan hkey hsubmit hid, hpoll]
  refine ⟨?_, ?_, tail, ?_⟩
  · simp only [count_append, count_cons, count_nil, c1, hs1]
    simp [ok, isStatus]
    omega
  · simp only [count_append, count_cons, count_nil, c2, hs2]
    simp [ok, isSleep]
  · simp [calls] at hcalls ⊢
    simp [hcalls, ok]

/-- The job is done at the third status query: three queries, two waits, then
the upload of the returned URL. -/
theorem poll_stops_at_first_image_witness :
    count isStatus (generateImage happyServices premiumRequest).trace = 3 ∧
    count isSleep (generateImage happyServices premiumRequest).trace = 2 ∧
    ∃ tail, calls (generateImage happyServices premiumRequest).trace =
      .auth :: .hordeSubmit "a red fox" "horde-key" ::
        (calls (waits "job-1" 2) ++
          .hordeStatus "job-1" ::
            .upload (uploadSource "https://horde.example/out.webp") false :: tail) :=
  poll_stops_at_first_image happyServices premiumRequest (some "user_2") "job-1" 3
    ⟨some "https://horde.example/out.webp"⟩ [] "https://horde.example/out.webp"
    rfl rfl (by decide) rfl (by decide) (by decide) (by decide)
    (fun j hj => ⟨⟨false, none⟩, by
      have hj2 : j < 2 := hj
      show Except.ok (if j < 2 then _ else _) = _
      rw [if_pos hj2], by decide⟩)
    rfl rfl (by decide)

/-- C5: in `generateImage`, premium caller, job id obtained, if each of the
first 20 status responses reports `done = false`, the handler makes exactly 20
status queries, answers `{success:false, message:"Image generation timed out"}`
and makes no media-store upload and no insert. -/
theorem poll_times_out (sv : Services) (req : Request) (userId : Option String)
    (id : String) (hauth : req.auth = .ok userId) (hplan : req.plan = "premium")
    (hkey : truthy sv.AI_HORDE_API_KEY = true)
    (hsubmit : sv.hordeSubmit req.prompt (sv.AI_HORDE_API_KEY.getD "") = .ok (some id))
    (hid : id ≠ "")
    (hnever : ∀ j < 20, ∃ d, sv.hordeStatus id j = .ok d ∧ d.done = false) :
    count isStatus (generateImage sv req).trace = 20 ∧
    (generateImage sv req).response =
      { status := 200, success := false, message := some "Image generation timed out",
        content := none, details := none } ∧
    count isUpload (generateImage sv req).trace = 0 ∧
    count isInsert (generateImage sv req).trace = 0 := by
  have hw : ∀ j < 20, ∃ d, sv.hordeStatus id (0 + j) = .ok d ∧ ready d = false := by
    intro j hj
    obtain ⟨d, hq, hd⟩ := hnever j hj
    exact ⟨d, by simpa using hq, by simp [ready, hd]⟩
  have hpoll : poll sv id maxAttempts 0 = (.exhausted, waits id 20) := by
    have h1 := poll_waits sv id 20 0 0 hw
    rw [show maxAttempts = 0 + 20 from rfl, h1]
    simp [poll]
  obtain ⟨c1, -, c3, c4⟩ := count_waits id 20
  rw [generateImage_polled sv req userId id hauth hplan hkey hsubmit hid, hpoll]
  refine ⟨?_, ?_, ?_, ?_⟩
  · simp only [count_append, count_cons, count_nil, c1]
    simp [ok, isStatus]
  · simp [catchImage]
  · simp only [count_append, count_cons, count_nil, c3]
    simp [ok, isUpload]
  · simp only [count_append, count_cons, count_nil, c4]
    simp [ok, isInsert]

/-- A job that is never done: 20 queries, the timeout answer, nothing stored. -/
theorem poll_times_out_witness :
    count isStatus (generateImage neverDoneServices premiumRequest).trace = 20 ∧
    (generateImage neverDoneServices premiumRequest).response =
      { status := 200, success := false, message := some "Image generation timed out",
        content := none, details := none } ∧
    count isUpload (generateImage neverDoneServices premiumRequest).trace = 0 ∧
    count isInsert (generateImage neverDoneServices premiumRequest).trace = 0 :=
  poll_times_out neverDoneServices premiumRequest (some "user_2") "job-1" rfl rfl
    (by decide) rfl (by decide) (fun _ _ => ⟨⟨false, none⟩, rfl, rfl⟩)

/-- C7, as stated, fails: the first status response reports `done = true` with
an empty generations list, and the handler does not fail there; it waits, sends
a second status query, uploads the image that one returns, inserts the row and
answers with a success. -/
theorem poll_done_empty_list_keeps_polling :
    emptyThenImageServices.hordeStatus "job-1" 0 = .ok ⟨true, some []⟩ ∧
    calls (generateImage emptyThenImageServices premiumRequest).trace =
      [.auth, .hordeSubmit "a red fox" "horde-key", .hordeStatus "job-1", .sleep 5000,
       .hordeStatus "job-1", .upload "https://horde.example/out.webp" false,
       .insert { user_id := some "user_2", prompt := "a red fox",
                 content := "https://res.cloudinary.example/v1/pid-1.png",
                 type := "image", publish := some false }] ∧
    (generateImage emptyThenImageServices premiumRequest).response.success = true :=
  ⟨rfl, by decide, by decide⟩

/-- C7 (amended): in `generateImage`, premium caller, job id obtained, when the
first `k - 1` status responses are not ready (`1 ≤ k ≤ 20`) and the `k`-th
reports `done = true` with at least one generation whose first generation has
an empty or missing `img`, the handler fails at that attempt: the `k`-th status
query is its last call, the answer is the error "AI Horde returned no image
data", and there is no upload and no insert.  A response with `done = true`
and an empty or missing generations list is one of the not-ready responses:
the loop counts the attempt, waits five seconds and goes on. -/
theorem poll_fails_on_missing_img (sv : Services) (req : Request)
    (userId : Option String) (id : String) (k : Nat) (g : Generation)
    (rest : List Generation)
    (hauth : req.auth = .ok userId) (hplan : req.plan = "premium")
    (hkey : truthy sv.AI_HORDE_API_KEY = true)
    (hsubmit : sv.hordeSubmit req.prompt (sv.AI_HORDE_API_KEY.getD "") = .ok (some id))
    (hid : id ≠ "") (hk1 : 1 ≤ k) (hk : k ≤ 20)
    (hwait : ∀ j < k - 1, ∃ d, sv.hordeStatus id j = .ok d ∧ ready d = false)
    (hdone : sv.hordeStatus id (k - 1) = .ok ⟨true, some (g :: rest)⟩)
    (himg : g.img = none ∨ g.img = some "") :
    ((generateImage sv req).trace =
        ok .auth :: ok (.hordeSubmit req.prompt (sv.AI_HORDE_API_KEY.getD "")) ::
          (waits id (k - 1) ++ [ok (.hordeStatus id)]) ∧
      (generateImage sv req).response =
        { status := 200, success := false,
          message := some "AI Horde returned no image data",
          content := none, details := none } ∧
      count isStatus (generateImage sv req).trace = k ∧
      count isUpload (generateImage sv req).trace = 0 ∧
      count isInsert (generateImage sv req).trace = 0) ∧
    (∀ (n a : Nat) (d : StatusData), sv.hordeStatus id a = .ok d → d.done = true →
      (d.generations = none ∨ d.generations = some []) →
        ready d = false ∧
        poll sv id (n + 1) a =
          ((poll sv id n (a + 1)).1,
            ok (.hordeStatus id) :: ok (.sleep 5000) :: (poll sv id n (a + 1)).2)) := by
  have hw : ∀ j < k - 1, ∃ d, sv.hordeStatus id (0 + j) = .ok d ∧ ready d = false := by
    simpa using hwait
  have hfalsy : truthy g.img = false := by
    rcases himg with h | h <;> simp [h, truthy]
  have hpoll : poll sv id maxAttempts 0 =
      (.thrown { message := "AI Horde returned no image data" },
        waits id (k - 1) ++ [ok (.hordeStatus id)]) := by
    have h1 := poll_waits sv id (k - 1) (20 - k + 1) 0 hw
    have h2 := poll_step_ready sv id (20 - k) (0 + (k - 1)) g rest (by simpa using hdone)
    rw [show maxAttempts = 20 - k + 1 + (k - 1) by unfold maxAttempts; omega, h1, h2]
    simp [hfalsy]
  obtain ⟨c1, -, c3, c4⟩ := count_waits id (k - 1)
  refine ⟨?_, ?_⟩
  · rw [generateImage_polled sv req userId id hauth hplan hkey hsubmit hid, hpoll]
    refine ⟨?_, ?_, ?_, ?_, ?_⟩
    · simp
    · simp [catchImage]
    · simp only [count_append, count_cons, count_nil, c1]
      simp [ok, isStatus]
      omega
    · simp only [count_append, count_cons, count_nil, c3]
      simp [ok, isUpload]
    · simp only [count_append, count_cons, count_nil, c4]
      simp [ok, isInsert]
  · intro n a d hq hd hg
    have hr : ready d = false := by
      rcases hg with h | h <;> simp [ready, h]
    exact ⟨hr, poll_step_notReady sv id n a d hq hr⟩

/-- The job is reported done at the first query with a generation that has no
`img`: one status query, the error answer, nothing stored. -/
theorem poll_fails_on_missing_img_witness :
    (generateImage noImageServices premiumRequest).trace =
      [ok .auth, ok (.hordeSubmit "a red fox" "horde-key"), ok (.hordeStatus "job-1")] ∧
    (generateImage noImageServices premiumRequest).response.message =
      some "AI Horde returned no image data" ∧
    count isInsert (generateImage noImageServices premiumRequest).trace = 0 :=
  have h := poll_fails_on_missing_img noImageServices premiumRequest (some "user_2")
    "job-1" 1 ⟨none⟩ [] rfl rfl (by decide) rfl (by decide) (by decide) (by decide)
    (fun j hj => absurd hj (Nat.not_lt_zero j)) rfl (Or.inl rfl)
  ⟨h.1.1, by rw [h.1.2.1], h.1.2.2.2.2⟩

/-! ## Errors at the handler boundary -/

/-- C9: in each of the six handlers, whenever a stage (auth lookup, upstream
call, upload, persistence, quota update) raises an error with message `m`, the
handler still sends a response, its body has `success = false` and
`message = m`, and the failing call is the last call of the run. -/
theorem errors_are_caught (sv : Services) (req : Request)
    (h : Services → Request → Run) (hmem : h ∈ handlers)
    (pre post : List Event) (ev : Event) (m : String)
    (htrace : (h sv req).trace = pre ++ ev :: post) (hfail : ev.failed = some m) :
    post = [] ∧ (h sv req).response.success = false ∧
      (h sv req).response.message = some m := by
  have hc : Caught (h sv req) := by
    simp only [handlers, List.mem_cons, List.mem_singleton, List.not_mem_nil,
      or_false] at hmem
    rcases hmem with rfl | rfl | rfl | rfl | rfl | rfl
    · exact caught_generateArticle sv req
    · exact caught_generateBlogTitle sv req
    · exact caught_generateImage sv req
    · exact caught_removeImageBackground sv req
    · exact caught_removeImageObject sv req
    · exact caught_resumeReview sv req
  exact Caught.spec (h sv req) hc pre post ev m htrace hfail

/-- The quota update of `generateArticle` fails after the row was inserted:
the response carries the provider's message and the update is the last call. -/
theorem errors_are_caught_witness :
    (generateArticle quotaDownServices haikuRequest).trace =
      [ok .auth,
       ok (.completion { model := "gemini-2.0-flash",
                         content := "Write a haiku about the sea",
                         temperature := ⟨7, 1⟩, max_tokens := some 60 }),
       ok (.insert { user_id := some "user_1", prompt := "Write a haiku about the sea",
                     content := "Waves fold into foam", type := "article" })] ++
      { call := .updateUserMetadata (some "user_1") 4,
        failed := some "Too Many Requests" } :: [] ∧
    (generateArticle quotaDownServices haikuRequest).response.success = false ∧
    (generateArticle quotaDownServices haikuRequest).response.message =
      some "Too Many Requests" :=
  have ht : (generateArticle quotaDownServices haikuRequest).trace =
      [ok .auth,
       ok (.completion { model := "gemini-2.0-flash",
                         content := "Write a haiku about the sea",
                         temperature := ⟨7, 1⟩, max_tokens := some 60 }),
       ok (.insert { user_id := some "user_1", prompt := "Write a haiku about the sea",
                     content := "Waves fold into foam", type := "article" })] ++
      { call := .updateUserMetadata (some "user_1") 4,
        failed := some "Too Many Requests" } :: [] := by decide
  ⟨ht, (errors_are_caught quotaDownServices haikuRequest generateArticle
    (by simp [handlers]) _ [] _ "Too Many Requests" ht rfl).2⟩

/-! ## Image records -/

/-- C6: every row that `generateImage`, `removeImageBackground` or
`removeImageObject` hands to the INSERT has type `image` and its content is the
URL obtained from the media store: the `secure_url` of the upload's answer for
the first two, the delivery URL derived from the upload's `public_id` for the
third; the content of a success response is that same URL.  The content is thus
taken from the store's answer and from nothing else: not from the generation's
`img` and not from the local file path, which are only the upload's argument. -/
theorem image_record_content_is_store_url (sv : Services) (req : Request) :
    ((∀ c ∈ inserts (generateImage sv req).trace,
        c.type = "image" ∧
          ∃ img r, sv.upload (uploadSource img) false = .ok r ∧
            ok (.upload (uploadSource img) false) ∈ (generateImage sv req).trace ∧
            c.content = r.secure_url) ∧
      ((generateImage sv req).response.success = true →
        ∃ img r, sv.upload (uploadSource img) false = .ok r ∧
          (generateImage sv req).response.content = some r.secure_url ∧
          (inserts (generateImage sv req).trace).map Creation.content = [r.secure_url])) ∧
    ((∀ c ∈ inserts (removeImageBackground sv req).trace,
        c.type = "image" ∧
          ∃ image r, req.file = some image ∧ sv.upload image.path true = .ok r ∧
            ok (.upload image.path true) ∈ (removeImageBackground sv req).trace ∧
            c.content = r.secure_url) ∧
      ((removeImageBackground sv req).response.success = true →
        ∃ image r, req.file = some image ∧ sv.upload image.path true = .ok r ∧
          (removeImageBackground sv req).response.content = some r.secure_url ∧
          (inserts (removeImageBackground sv req).trace).map Creation.content
            = [r.secure_url])) ∧
    ((∀ c ∈ inserts (removeImageObject sv req).trace,
        c.type = "image" ∧
          ∃ image object r, req.file = some image ∧ req.object = some object ∧
            sv.upload image.path false = .ok r ∧
            ok (.upload image.path false) ∈ (removeImageObject sv req).trace ∧
            c.content = sv.url r.public_id ("gen_remove:" ++ object)) ∧
      ((removeImageObject sv req).response.success = true →
        ∃ image object r, req.file = some image ∧ req.object = some object ∧
          sv.upload image.path false = .ok r ∧
          (removeImageObject sv req).response.content =
            some (sv.url r.public_id ("gen_remove:" ++ object)) ∧
          (inserts (removeImageObject sv req).trace).map Creation.content
            = [sv.url r.public_id ("gen_remove:" ++ object)])) := by
  refine ⟨?_, ?_, ?_⟩
  · rcases generateImage_shape sv req with ⟨h1, h2⟩ | ⟨userId, img, pre, hrun, hpre⟩
    · refine ⟨?_, ?_⟩
      · intro c hc
        rw [h1] at hc
        cases hc
      · intro hs
        rw [h2] at hs
        cases hs
    · obtain ⟨hrows, hsucc⟩ := storeImage_content sv req userId img
      rw [hrun]
      refine ⟨?_, ?_⟩
      · intro c hc
        simp only [inserts_append, hpre, List.nil_append] at hc
        obtain ⟨ht, r, hr, hmem, hcontent⟩ := hrows c hc
        exact ⟨ht, img, r, hr, List.mem_append_right _ hmem, hcontent⟩
      · intro hs
        obtain ⟨r, hr, hcontent, hins⟩ := hsucc hs
        refine ⟨img, r, hr, hcontent, ?_⟩
        simp only [inserts_append, hpre, List.nil_append]
        exact hins
  · unfold removeImageBackground
    simp only
    split
    · simp [inserts]
    · rename_i image hfile
      split
      · simp [inserts, premiumOnly]
      · split
        · simp [inserts, threw, catch500]
        · rename_i r hr
          split
          · refine ⟨?_, by simp [catch500]⟩
            intro c hc
            simp [inserts, threw, ok] at hc
            subst hc
            exact ⟨rfl, image, r, hfile, hr, by simp [ok], rfl⟩
          · refine ⟨?_, fun _ => ⟨image, r, hfile, hr, rfl, by simp [inserts, ok]⟩⟩
            intro c hc
            simp [inserts, ok] at hc
            subst hc
            exact ⟨rfl, image, r, hfile, hr, by simp [ok], rfl⟩
  · unfold removeImageObject
    split
    · simp [inserts, threw, catch500]
    · split
      · simp [inserts, ok]
      · rename_i image hfile
        split
        · simp [inserts, ok]
        · rename_i hobj
          split
          · simp [inserts, ok, premiumOnly]
          · simp only
            have hobject : req.object = some (req.object.getD "") := by
              cases ho : req.object with
              | none => simp [ho, truthy] at hobj
              | some o => simp
            split
            · simp [inserts, ok, threw, catch500]
            · rename_i r hr
              split
              · refine ⟨?_, by simp [catch500]⟩
                intro c hc
                simp [inserts, threw, ok] at hc
                subst hc
                exact ⟨rfl, image, _, r, hfile, hobject, hr, by simp [ok], rfl⟩
              · refine ⟨?_, fun _ => ⟨image, _, r, hfile, hobject, hr, rfl,
                  by simp [inserts, ok]⟩⟩
                intro c hc
                simp [inserts, ok] at hc
                subst hc
                exact ⟨rfl, image, _, r, hfile, hobject, hr, by simp [ok], rfl⟩

/-- A premium caller with a file and an object label, every collaborator
answering: the success content of `generateImage` and the row inserted by
`removeImageObject` carry the media store's URL. -/
theorem image_record_content_is_store_url_witness :
    ((generateImage happyServices premiumUploadRequest).response.success = true ∧
      ∃ img r, happyServices.upload (uploadSource img) false = .ok r ∧
        (generateImage happyServices premiumUploadRequest).response.content
          = some r.secure_url ∧
        (inserts (generateImage happyServices premiumUploadRequest).trace).map
          Creation.content = [r.secure_url]) ∧
    (lampRow ∈ inserts (removeImageObject happyServices premiumUploadRequest).trace ∧
      ∃ image object r, premiumUploadRequest.file = some image ∧
        premiumUploadRequest.object = some object ∧
        happyServices.upload image.path false = .ok r ∧
        ok (.upload image.path false) ∈
          (removeImageObject happyServices premiumUploadRequest).trace ∧
        lampRow.content = happyServices.url r.public_id ("gen_remove:" ++ object)) :=
  have h := image_record_content_is_store_url happyServices premiumUploadRequest
  have hs : (generateImage happyServices premiumUploadRequest).response.success = true := by
    decide
  have hm : lampRow ∈
      inserts (removeImageObject happyServices premiumUploadRequest).trace := by
    decide
  ⟨⟨hs, h.1.2 hs⟩, hm, (h.2.2.1 lampRow hm).2⟩

/-! ## Resume review -/

/-- C8, as stated, fails in its last part: for a request marked premium with
a 6 MiB file whose `req.auth()` call throws, the message of the response is the
message of that error, not the size message. -/
theorem resume_size_message_needs_auth :
    unauthenticatedBigResume.plan = "premium" ∧
    (unauthenticatedBigResume.file.map UploadedFile.size) = some 6291456 ∧
    6291456 > 5 * 1024 * 1024 ∧
    (resumeReview happyServices unauthenticatedBigResume).response =
      { status := 500, success := false, message := some "Unauthenticated" } ∧
    (resumeReview happyServices unauthenticatedBigResume).response.message ≠
      some "Resume file size exceeds allowed size (5MB)." := by
  decide

/-- C8 (amended): for every `resumeReview` request whose uploaded file has size
above 5 MiB (5 × 1024 × 1024 = 5242880 bytes), for either plan, the response has
`success = false` and the handler makes no file read, no text extraction, no
completion call and no insert; for a premium caller whose auth lookup succeeds
the response is `{success:false, message:"Resume file size exceeds allowed size
(5MB)."}`. -/
theorem resume_size_gate (sv : Services) (req : Request) (resume : UploadedFile)
    (hfile : req.file = some resume) (hsize : resume.size > 5 * 1024 * 1024) :
    (5 * 1024 * 1024 = 5242880) ∧
    (resumeReview sv req).response.success = false ∧
    count isExtraction (resumeReview sv req).trace = 0 ∧
    count isCompletion (resumeReview sv req).trace = 0 ∧
    count isInsert (resumeReview sv req).trace = 0 ∧
    (∀ userId, req.auth = .ok userId → req.plan = "premium" →
      (resumeReview sv req).response =
        { status := 200, success := false,
          message := some "Resume file size exceeds allowed size (5MB).",
          content := none, details := none }) := by
  have hbig : resume.size > maxResumeSize := hsize
  refine ⟨by norm_num, ?_⟩
  cases hauth : req.auth with
  | error e =>
    simp [resumeReview, hauth, catch500, count, threw, isExtraction, isCompletion, isInsert]
  | ok userId =>
    by_cases hplan : req.plan = "premium"
    · simp [resumeReview, hauth, hfile, hplan, hbig, count, ok, isExtraction,
        isCompletion, isInsert]
    · simp [resumeReview, hauth, hfile, hplan, premiumOnly, count, ok, isExtraction,
        isCompletion, isInsert]

/-- A premium caller with a 6 MiB resume gets the size message and nothing is
read. -/
theorem resume_size_gate_witness :
    bigResumeRequest.file = some ⟨"uploads/cv.pdf", 6291456, "application/pdf"⟩ ∧
    (resumeReview happyServices bigResumeRequest).response =
      { status := 200, success := false,
        message := some "Resume file size exceeds allowed size (5MB).",
        content := none, details := none } ∧
    count isExtraction (resumeReview happyServices bigResumeRequest).trace = 0 :=
  have h := resume_size_gate happyServices bigResumeRequest
    ⟨"uploads/cv.pdf", 6291456, "application/pdf"⟩ rfl (by decide)
  ⟨rfl, h.2.2.2.2.2 (some "user_2") rfl rfl, h.2.2.1⟩

/-- C10, as stated, fails: a premium caller uploads a PNG picture as a resume;
the handler reads the file and calls the PDF extractor on it, and answers with
a failure only because the extractor raises. -/
theorem resume_non_pdf_is_extracted :
    pictureResumeRequest.plan = "premium" ∧
    (pictureResumeRequest.file.map UploadedFile.mimetype) = some "image/png" ∧
    (resumeReview notPdfServices pictureResumeRequest).trace =
      [ok .auth, ok (.readFileSync "uploads/photo.png"),
       { call := .pdf "PNG bytes", failed := some "Invalid PDF structure" }] ∧
    count isExtraction (resumeReview notPdfServices pictureResumeRequest).trace = 2 ∧
    (resumeReview notPdfServices pictureResumeRequest).response =
      { status := 500, success := false, message := some "Invalid PDF structure" } := by
  decide

/-- C10 (amended): `resumeReview` has no check of the file type.  For a premium
caller whose uploaded file is one the PDF extractor raises an error on, the
response has `success = false` and the handler makes no completion call and no
insert; when the auth lookup succeeds, the file is at most 5 MiB and the file
read succeeds, the handler does attempt the extraction: its calls are the auth
lookup, the file read and the extractor call, and the response is the status-500
failure carrying the extractor's message. -/
theorem resume_non_pdf_fails_in_extractor (sv : Services) (req : Request)
    (resume : UploadedFile) (hplan : req.plan = "premium")
    (hfile : req.file = some resume)
    (hpdf : ∀ data, sv.readFileSync resume.path = .ok data → ∃ e, sv.pdf data = .error e) :
    (resumeReview sv req).response.success = false ∧
    count isCompletion (resumeReview sv req).trace = 0 ∧
    count isInsert (resumeReview sv req).trace = 0 ∧
    (∀ userId data e, req.auth = .ok userId → resume.size ≤ 5 * 1024 * 1024 →
      sv.readFileSync resume.path = .ok data → sv.pdf data = .error e →
        (resumeReview sv req).trace =
          [ok .auth, ok (.readFileSync resume.path), threw (.pdf data) e] ∧
        (resumeReview sv req).response =
          { status := 500, success := false, message := some e.message,
            content := none, details := none }) := by
  cases hauth : req.auth with
  | error e =>
    simp [resumeReview, hauth, catch500, count, threw, isCompletion, isInsert]
  | ok userId =>
    by_cases hbig : resume.size > maxResumeSize
    · have hle : ¬ resume.size ≤ 5 * 1024 * 1024 := by
        unfold maxResumeSize at hbig
        omega
      refine ⟨?_, ?_, ?_, ?_⟩
      · simp [resumeReview, hauth, hfile, hplan, hbig]
      · simp [resumeReview, hauth, hfile, hplan, hbig, count, ok, isCompletion]
      · simp [resumeReview, hauth, hfile, hplan, hbig, count, ok, isInsert]
      · intro _ _ _ _ h
        exact absurd h hle
    · cases hread : sv.readFileSync resume.path with
      | error e =>
        refine ⟨?_, ?_, ?_, ?_⟩
        · simp [resumeReview, hauth, hfile, hplan, hbig, hread, catch500]
        · simp [resumeReview, hauth, hfile, hplan, hbig, hread, count, ok, threw,
            isCompletion]
        · simp [resumeReview, hauth, hfile, hplan, hbig, hread, count, ok, threw, isInsert]
        · intro _ _ _ _ _ h
          cases h
      | ok data =>
        obtain ⟨e, he⟩ := hpdf data hread
        refine ⟨?_, ?_, ?_, ?_⟩
        · simp [resumeReview, hauth, hfile, hplan, hbig, hread, he, catch500]
        · simp [resumeReview, hauth, hfile, hplan, hbig, hread, he, count, ok, threw,
            isCompletion]
        · simp [resumeReview, hauth, hfile, hplan, hbig, hread, he, count, ok, threw,
            isInsert]
        · intro userId' data' e' _ _ hd he'
          have hdd : data = data' := by
            injection hd
          subst hdd
          rw [he] at he'
          have hee : e = e' := by
            injection he'
          subst hee
          simp [resumeReview, hauth, hfile, hplan, hbig, hread, he, catch500]

/-- A PNG picture sent as a resume by a premium caller, in a world whose
extractor accepts PDF data and rejects the rest: the extractor is called on the
picture, raises, and the handler answers with its message. -/
theorem resume_non_pdf_fails_in_extractor_witness :
    pdfOnlyServices.pdf "%PDF-1.4" = .ok "Jane Doe, engineer" ∧
    (resumeReview pdfOnlyServices pictureResumeRequest).response.success = false ∧
    count isCompletion (resumeReview pdfOnlyServices pictureResumeRequest).trace = 0 ∧
    count isInsert (resumeReview pdfOnlyServices pictureResumeRequest).trace = 0 ∧
    (resumeReview pdfOnlyServices pictureResumeRequest).trace =
      [ok .auth, ok (.readFileSync "uploads/photo.png"),
       threw (.pdf "PNG bytes") { message := "Invalid PDF structure" }] ∧
    (resumeReview pdfOnlyServices pictureResumeRequest).response.message =
      some "Invalid PDF structure" :=
  have h := resume_non_pdf_fails_in_extractor pdfOnlyServices pictureResumeRequest
    ⟨"uploads/photo.png", 204800, "image/png"⟩ rfl rfl
    (fun data hd => ⟨{ message := "Invalid PDF structure" }, by
      have hdata : data = "PNG bytes" := by
        have h0 : (Except.ok "PNG bytes" : Except JsError String) = .ok data := hd
        injection h0 with h1
        exact h1.symm
      subst hdata
      rfl⟩)
  have h4 := h.2.2.2 (some "user_2") "PNG bytes" { message := "Invalid PDF structure" }
    rfl (by decide) rfl rfl
  ⟨rfl, h.1, h.2.1, h.2.2.1, h4.1, by rw [h4.2]⟩

end QuickAi
